import Mathlib

/-!
Verification of the chromes instance manager (config package and chrome
package) against its specification.  The Go source is shallowly embedded:
pure logic is translated directly, and every OS interaction (environment
variables, filepath.Abs, process discovery commands, signals, spawning,
file writes) is mediated by an explicit environment record `Env` so that
the state transitions of the code become pure Lean functions.
-/

set_option maxRecDepth 4000

/-- Operating system tag, modelling runtime.GOOS.  The `other` case covers
every value outside darwin, windows and linux (the default switch cases). -/
inductive GOOS
  | darwin
  | windows
  | linux
  | other
deriving DecidableEq, Repr

/-- Result of a failed cmd.Output() call on a discovery command: either an
exec.ExitError carrying the exit code and the captured output, or any other
execution error. -/
inductive FindErr
  | exit (code : Int) (output : String)
  | failed
deriving DecidableEq, Repr

/-- Identifies which discovery command is executed.  `defaultPresence` is
the command-listing query used by isChromeDirInUse for the default profile;
`defaultPids` is the pid-listing query used by chromeStop for the default
profile; `byDir` is the pgrep or powershell query keyed by the normalized
user data directory, used by both functions for a named profile. -/
inductive FindQuery
  | defaultPresence
  | defaultPids
  | byDir (absDir : String)
deriving DecidableEq, Repr

/-- Outcome of one per-pid termination request inside chromeStop.
`ok` means the request was delivered; `alreadyGone` covers the cases the
code treats as success (taskkill exit code 128, ESRCH from FindProcess or
Signal); `failed` is any other error, recorded as lastKillError. -/
inductive KillOutcome
  | ok
  | alreadyGone
  | failed
deriving DecidableEq, Repr

/-- Error values: one constructor per distinct fmt.Errorf site in the Go
source. -/
inductive GoError
  | alreadyRunning (name : String)
  | notRunning (name : String)
  | absPathFailed (dir : String)
  | launchFailed (name dir : String)
  | signalFallbackFailed (name : String)
  | signalFallbackNotFound (name : String)
  | stopByDirFailed (name dir : String)
  | stopByDirNotFound (name dir : String)
  | unsupportedOS
  | findFailed
  | invalidPid (s : String)
  | killFailed (pid : Int)
  | reservedName
  | emptyUserDataDir
  | defaultDirReserved (dir : String)
  | nameExists (name : String)
  | dirExists (dir : String)
  | saveFailed
  | cannotRemoveDefault
  | notFound (name : String)
  | ioError
deriving DecidableEq, Repr

/-- Decidable equality for Except values, used to evaluate concrete
results. -/
instance instDecEqExcept {e a : Type} [DecidableEq e] [DecidableEq a] :
    DecidableEq (Except e a) := fun x y =>
  match x, y with
  | .error u, .error v => decidable_of_iff (u = v) (by simp)
  | .error _, .ok _ => isFalse (by simp)
  | .ok _, .error _ => isFalse (by simp)
  | .ok u, .ok v => decidable_of_iff (u = v) (by simp)

/-- Classifies the errors that the specification taxonomy calls
ValidationError: a bad name or directory handed to the registry. -/
def isValidationError : GoError → Bool
  | .reservedName => true
  | .emptyUserDataDir => true
  | .defaultDirReserved _ => true
  | .nameExists _ => true
  | .dirExists _ => true
  | _ => false

/-- A platform launch command: executable path and argument list, as built
by Instance.Start. -/
structure LaunchCmd where
  path : String
  args : List String
deriving DecidableEq, Repr

/-- OS calls performed by an operation, recorded as a trace so that claims
about which calls happen (or do not happen) can be stated. -/
inductive Effect
  | query (q : FindQuery)
  | signal (pid : Nat)
  | killPid (pid : Int)
  | spawnProc (c : LaunchCmd)
  | waitProc
deriving DecidableEq, Repr

/-- Model of an owned exec.Cmd.  `process` is the Process field (a pid when
non-nil); `processState` is nil until a wait has completed, and `some ex`
models a non-nil ProcessState whose Exited() returns `ex`. -/
structure GoCmd where
  process : Option Nat
  processState : Option Bool
deriving DecidableEq, Repr

/-- ChromeConfig from the config package: name, user data directory, and
the IsDefault marker (never serialized). -/
structure ChromeConfig where
  name : String
  userDataDir : String
  isDefault : Bool
deriving DecidableEq, Repr

/-- One record of the persisted JSON file: only name and user_data_dir are
serialized (IsDefault carries the json "-" tag). -/
structure PersistedRecord where
  name : String
  userDataDir : String
deriving DecidableEq, Repr

/-- The ambient operating system: every effectful primitive the Go code
calls is a field here, so the embedded functions are pure. -/
structure Env where
  goos : GOOS
  /-- filepath.Abs; `none` models an error return. -/
  abs : String → Option String
  /-- cmd.Output() of a discovery command. -/
  runFind : FindQuery → Except FindErr String
  /-- per-pid termination request (taskkill or FindProcess plus Signal). -/
  kill : Int → KillOutcome
  /-- Process.Signal SIGTERM on an owned handle; true means nil error. -/
  signalOk : Nat → Bool
  /-- cmd.Start(); `none` models a spawn error, `some pid` a started process. -/
  spawn : LaunchCmd → Option Nat
  /-- result of cmd.Wait() on an owned handle. -/
  waitResult : GoCmd → Option GoError
  /-- the LOCALAPPDATA environment variable. -/
  localAppData : String
  /-- os.UserHomeDir; `none` models an error. -/
  homeDir : Option String
  /-- os.WriteFile success of the config file. -/
  writeOk : Bool

/-- Whitespace as recognized by strings.TrimSpace (the ASCII cases). -/
def goIsSpace (c : Char) : Bool :=
  c = ' ' || c = '\t' || c = '\n' || c = '\r' || c = '\x0b' || c = '\x0c'

/-- strings.TrimSpace, modelled structurally over the character list. -/
def goTrim (s : String) : String :=
  ⟨List.reverse (List.dropWhile goIsSpace (List.reverse (List.dropWhile goIsSpace s.data)))⟩

/-- ASCII lowercase mapping, the case folding used to model
strings.EqualFold. -/
def goToLowerChar (c : Char) : Char :=
  if 65 ≤ c.toNat ∧ c.toNat ≤ 90 then Char.ofNat (c.toNat + 32) else c

/-- strings.EqualFold, modelled as equality after lowercasing. -/
def strEqualFold (a b : String) : Bool :=
  a.data.map goToLowerChar == b.data.map goToLowerChar

/-- strings.Split with a single-character separator, over character lists. -/
def splitChar (sep : Char) : List Char → List (List Char)
  | [] => [[]]
  | c :: rest =>
    let r := splitChar sep rest
    if c = sep then [] :: r
    else
      match r with
      | [] => [[c]]
      | g :: gs => (c :: g) :: gs

/-- strings.Split with a single-character separator. -/
def goSplit (s : String) (sep : Char) : List String :=
  (splitChar sep s.data).map (fun l => ⟨l⟩)

/-- Decimal digit run parser underlying the Atoi model. -/
def parseDigits : List Char → Nat → Option Nat
  | [], acc => some acc
  | c :: rest, acc =>
    if c.isDigit then parseDigits rest (acc * 10 + (c.toNat - 48)) else none

/-- strconv.Atoi: an optional sign followed by at least one decimal digit. -/
def goAtoi (s : String) : Option Int :=
  match s.data with
  | [] => none
  | '+' :: rest =>
    if rest = [] then none else (parseDigits rest 0).map (fun n => (n : Int))
  | '-' :: rest =>
    if rest = [] then none else (parseDigits rest 0).map (fun n => -(n : Int))
  | l => (parseDigits l 0).map (fun n => (n : Int))

/-- strings.ReplaceAll with a single-character pattern, over character
lists. -/
def goReplaceChar (pat : Char) (repl : List Char) : List Char → List Char
  | [] => []
  | c :: rest =>
    if c = pat then repl ++ goReplaceChar pat repl rest
    else c :: goReplaceChar pat repl rest

/-- strings.ReplaceAll with a single-character pattern. -/
def goReplace (s : String) (pat : Char) (repl : String) : String :=
  ⟨goReplaceChar pat repl.data s.data⟩

/-- String concatenation of a list with a separator, modelling
strings.Join. -/
def goIntercalate (sep : String) : List String → String
  | [] => ""
  | [p] => p
  | p :: rest => ⟨p.data ++ sep.data ++ (goIntercalate sep rest).data⟩

/-- filepath.Join restricted to the shapes used here: drops empty elements
and joins with the platform separator (Clean is the identity on these
inputs). -/
def goJoin (sep : String) (parts : List String) : String :=
  goIntercalate sep (parts.filter (fun p => p != ""))

/-- Name reserved for the default instance (the Go constant
DefaultChromeConfigName). -/
def DefaultChromeConfigName : String := "[默认配置]"

/-- GetDefaultUserDataDir from config.go: the platform default Chrome user
data directory, computed from environment data carried by `Env`. -/
def GetDefaultUserDataDir (env : Env) : String :=
  match env.goos with
  | .windows => goJoin "\\" [env.localAppData, "Google", "Chrome", "User Data"]
  | .darwin =>
    match env.homeDir with
    | none => ""
    | some h => goJoin "/" [h, "Library", "Application Support", "Google", "Chrome"]
  | .linux =>
    match env.homeDir with
    | none => ""
    | some h => goJoin "/" [h, ".config", "google-chrome"]
  | .other => ""

/-- The guard used (identically) by LoadConfigs, SaveConfigs and AddConfig
to detect a directory that normalizes to the actual default profile
directory: the default directory is nonempty, both filepath.Abs calls
succeed, and the absolute paths are equal under strings.EqualFold. -/
def defaultDirClash (env : Env) (dir : String) : Bool :=
  let dd := GetDefaultUserDataDir env
  dd != "" &&
    (match env.abs dir, env.abs dd with
     | some a, some d => strEqualFold a d
     | _, _ => false)

/-- The sentinel config prepended by LoadConfigs. -/
def defaultChromeConfig : ChromeConfig :=
  { name := DefaultChromeConfigName, userDataDir := "", isDefault := true }

/-- The validation loop of LoadConfigs over the unmarshalled records:
drops a record whose name is reserved, whose directory clashes with the
default directory, or whose directory is empty; marks the rest non-default. -/
def loadValidUserConfigs (env : Env) : List PersistedRecord → List ChromeConfig
  | [] => []
  | r :: rest =>
    if r.name = DefaultChromeConfigName then loadValidUserConfigs env rest
    else if defaultDirClash env r.userDataDir then loadValidUserConfigs env rest
    else if r.userDataDir = "" then loadValidUserConfigs env rest
    else { name := r.name, userDataDir := r.userDataDir, isDefault := false }
           :: loadValidUserConfigs env rest

/-- Result of reading and unmarshalling the config file. -/
inductive ReadResult
  | notExist
  | readFailed
  | badJson
  | ok (records : List PersistedRecord)
deriving DecidableEq, Repr

/-- LoadConfigs: on any read or parse failure returns only the default
sentinel; otherwise the sentinel followed by the validated user configs. -/
def LoadConfigs (env : Env) (r : ReadResult) : List ChromeConfig :=
  match r with
  | .ok records => defaultChromeConfig :: loadValidUserConfigs env records
  | _ => [defaultChromeConfig]

/-- The marshalling loop of SaveConfigs: skips default entries, rejects a
reserved name, an empty directory, or a directory clashing with the default
directory, and collects the serialized records in order. -/
def saveUserRecords (env : Env) : List ChromeConfig → Except GoError (List PersistedRecord)
  | [] => .ok []
  | cfg :: rest =>
    if cfg.isDefault then saveUserRecords env rest
    else if cfg.name = DefaultChromeConfigName then .error .reservedName
    else if cfg.userDataDir = "" then .error .emptyUserDataDir
    else if defaultDirClash env cfg.userDataDir then .error (.defaultDirReserved cfg.userDataDir)
    else
      match saveUserRecords env rest with
      | .error e => .error e
      | .ok rs => .ok ({ name := cfg.name, userDataDir := cfg.userDataDir } :: rs)

/-- SaveConfigs: validates and marshals the non-default entries, then
writes the file; on success the result is the sequence of records now on
disk. -/
def SaveConfigs (env : Env) (cfgs : List ChromeConfig) : Except GoError (List PersistedRecord) :=
  match saveUserRecords env cfgs with
  | .error e => .error e
  | .ok rs => if env.writeOk then .ok rs else .error .ioError

/-- The duplicate scan of AddConfig: skips the default entry, then per
entry first the name comparison, then the absolute-path comparison (only
when both filepath.Abs calls succeed). -/
def findDuplicate (env : Env) (name dir : String) : List ChromeConfig → Option GoError
  | [] => none
  | cfg :: rest =>
    if cfg.isDefault then findDuplicate env name dir rest
    else if cfg.name = name then some (.nameExists name)
    else if (match env.abs cfg.userDataDir, env.abs dir with
             | some ae, some an => strEqualFold ae an
             | _, _ => false) then some (.dirExists dir)
    else findDuplicate env name dir rest

/-- AddConfig: rejects the reserved name, an empty or whitespace directory,
a directory clashing with the default directory, and name or directory
duplicates; otherwise appends the new entry and persists, returning the old
list on any failure. -/
def AddConfig (env : Env) (name userDataDir : String) (current : List ChromeConfig) :
    List ChromeConfig × Option GoError :=
  if name = DefaultChromeConfigName then (current, some .reservedName)
  else if goTrim userDataDir = "" then (current, some .emptyUserDataDir)
  else if defaultDirClash env userDataDir then (current, some (.defaultDirReserved userDataDir))
  else
    match findDuplicate env name userDataDir current with
    | some e => (current, some e)
    | none =>
      let updated := current ++ [{ name := name, userDataDir := userDataDir, isDefault := false }]
      match SaveConfigs env updated with
      | .error _ => (current, some .saveFailed)
      | .ok _ => (updated, none)

/-- RemoveConfig: rejects the reserved name before anything else, then
fails if the name is absent, otherwise filters it out and persists,
returning the old list on any failure. -/
def RemoveConfig (env : Env) (name : String) (current : List ChromeConfig) :
    List ChromeConfig × Option GoError :=
  if name = DefaultChromeConfigName then (current, some .cannotRemoveDefault)
  else
    let updated := current.filter (fun c => c.name != name)
    let found := current.any (fun c => c.name == name)
    if !found then (current, some (.notFound name))
    else
      match SaveConfigs env updated with
      | .error _ => (current, some .saveFailed)
      | .ok _ => (updated, none)

/-- The chrome.Instance structure: the bound config, the optional owned
exec.Cmd, and the running flag (the mutex serializes access; here each
operation is one atomic state transition). -/
structure Instance where
  config : ChromeConfig
  cmd : Option GoCmd
  isRunning : Bool
deriving DecidableEq, Repr

/-- Normalization of the user data directory performed by isChromeDirInUse
and chromeStop before building the discovery pattern: filepath.Abs on
darwin, linux and windows (keeping the original on error), plus the
forward-slash to double-backslash replacement on windows; unchanged on
other systems. -/
def normalizeDirForFind (env : Env) (userDataDir : String) : String :=
  match env.goos with
  | .darwin | .linux => ((env.abs userDataDir).getD userDataDir)
  | .windows => goReplace ((env.abs userDataDir).getD userDataDir) '/' "\\\\"
  | .other => userDataDir

/-- isChromeDirInUse: runs the discovery command for the given directory
(or the default-instance query for the empty directory) and reports whether
the trimmed output is nonempty; any command error reports false. -/
def isChromeDirInUse (env : Env) (userDataDir : String) : Bool :=
  if userDataDir = "" then
    match env.goos with
    | .other => false
    | _ =>
      match env.runFind .defaultPresence with
      | .error _ => false
      | .ok out => goTrim out != ""
  else
    match env.runFind (.byDir (normalizeDirForFind env userDataDir)) with
    | .error _ => false
    | .ok out => goTrim out != ""

/-- NewInstance: binds the config and seeds the running flag from a
construction-time discovery; no handle is held. -/
def NewInstance (env : Env) (cfg : ChromeConfig) : Instance :=
  { config := cfg, cmd := none, isRunning := isChromeDirInUse env cfg.userDataDir }

/-- One iteration of the kill loop of chromeStop: trims the pid string,
skips an empty one, records an invalid-number error, and otherwise issues
the termination request, treating an already-gone process as killed. -/
def killOne (env : Env) (pidStr : String) : Bool × Option GoError × List Effect :=
  let p := goTrim pidStr
  if p = "" then (false, none, [])
  else
    match goAtoi p with
    | none => (false, some (.invalidPid p), [])
    | some pid =>
      match env.kill pid with
      | .ok => (true, none, [.killPid pid])
      | .alreadyGone => (true, none, [.killPid pid])
      | .failed => (false, some (.killFailed pid), [.killPid pid])

/-- The kill loop of chromeStop: accumulates whether at least one process
was killed and the last kill error. -/
def killLoop (env : Env) : List String → Bool × Option GoError × List Effect
  | [] => (false, none, [])
  | p :: rest =>
    let r := killOne env p
    let rr := killLoop env rest
    (r.1 || rr.1, if rr.2.1.isSome then rr.2.1 else r.2.1, r.2.2 ++ rr.2.2)

/-- Result of chromeStop: whether a process was stopped, the error, and the
trace of OS calls made. -/
structure StopOutcome where
  stopped : Bool
  err : Option GoError
  effs : List Effect
deriving DecidableEq, Repr

/-- Shared tail of chromeStop after a successful discovery: trim the
output, split it into pid strings (comma on windows, newline elsewhere),
return not-found on an effectively empty list, else run the kill loop and
surface the last kill error only when nothing was killed. -/
def chromeStopKillPhase (env : Env) (q : FindQuery) (out : String) : StopOutcome :=
  let pidsStr := goTrim out
  if pidsStr = "" then { stopped := false, err := none, effs := [.query q] }
  else
    let pidsToKill :=
      if env.goos = .windows then goSplit pidsStr (',') else goSplit pidsStr ('\n')
    let emptyOnly :=
      match pidsToKill with
      | [] => true
      | [p] => goTrim p = ""
      | _ => false
    if emptyOnly then { stopped := false, err := none, effs := [.query q] }
    else
      let r := killLoop env pidsToKill
      if !r.1 && r.2.1.isSome then { stopped := false, err := r.2.1, effs := .query q :: r.2.2 }
      else { stopped := r.1, err := none, effs := .query q :: r.2.2 }

/-- chromeStop: discovers the processes matching the user data directory
(or the default-instance query for the empty directory) and requests their
termination.  A discovery exit code of 1 means no process was found (for
the default query the captured output must also be empty); an unsupported
platform is an error. -/
def chromeStop (env : Env) (userDataDir : String) : StopOutcome :=
  if userDataDir = "" then
    match env.goos with
    | .other => { stopped := false, err := some .unsupportedOS, effs := [] }
    | _ =>
      match env.runFind .defaultPids with
      | .error (.exit code out) =>
        if code = 1 ∧ out.length = 0 then
          { stopped := false, err := none, effs := [.query .defaultPids] }
        else
          { stopped := false, err := some .findFailed, effs := [.query .defaultPids] }
      | .error .failed =>
        { stopped := false, err := some .findFailed, effs := [.query .defaultPids] }
      | .ok out => chromeStopKillPhase env .defaultPids out
  else
    let absDir := normalizeDirForFind env userDataDir
    match env.goos with
    | .other => { stopped := false, err := some .unsupportedOS, effs := [] }
    | _ =>
      match env.runFind (.byDir absDir) with
      | .error (.exit code _) =>
        if code = 1 then
          { stopped := false, err := none, effs := [.query (.byDir absDir)] }
        else
          { stopped := false, err := some .findFailed, effs := [.query (.byDir absDir)] }
      | .error .failed =>
        { stopped := false, err := some .findFailed, effs := [.query (.byDir absDir)] }
      | .ok out => chromeStopKillPhase env (.byDir absDir) out

/-- Result of one Instance operation: the new instance state, the returned
error, and the trace of OS calls made. -/
structure InstStep where
  inst : Instance
  err : Option GoError
  effs : List Effect
deriving DecidableEq, Repr

/-- The flags always appended to the launch command. -/
def noFirstRun : String := "--no-first-run"

/-- The second flag always appended to the launch command. -/
def noDefaultBrowserCheck : String := "--no-default-browser-check"

/-- The isolation-directory flag of the launch command. -/
def userDataDirFlag : String := "--user-data-dir="

/-- The launch command built by Instance.Start: per platform executable,
the user-data-dir argument omitted for the empty directory (made absolute
on darwin, separator-adjusted on windows, passed as stored elsewhere), and
the two suppression flags appended last. -/
def buildChromeCommand (env : Env) (userDataDir : String) : Except GoError LaunchCmd :=
  match env.goos with
  | .darwin =>
    let chromePath := "/Applications/Google Chrome.app/Contents/MacOS/Google Chrome"
    if userDataDir = "" then
      .ok { path := chromePath, args := [noFirstRun, noDefaultBrowserCheck] }
    else
      match env.abs userDataDir with
      | none => .error (.absPathFailed userDataDir)
      | some a =>
        .ok { path := chromePath,
              args := [userDataDirFlag ++ a, noFirstRun, noDefaultBrowserCheck] }
  | .windows =>
    let chromePath := "C:\\Program Files\\Google\\Chrome\\Application\\chrome.exe"
    if userDataDir = "" then
      .ok { path := chromePath, args := [noFirstRun, noDefaultBrowserCheck] }
    else
      .ok { path := chromePath,
            args := [userDataDirFlag ++ (goReplace userDataDir '/' "\\"),
                     noFirstRun, noDefaultBrowserCheck] }
  | .linux =>
    if userDataDir = "" then
      .ok { path := "google-chrome", args := [noFirstRun, noDefaultBrowserCheck] }
    else
      .ok { path := "google-chrome",
            args := [userDataDirFlag ++ userDataDir, noFirstRun, noDefaultBrowserCheck] }
  | .other =>
    if userDataDir = "" then
      .ok { path := "chrome", args := [noFirstRun, noDefaultBrowserCheck] }
    else
      .ok { path := "chrome",
            args := [userDataDirFlag ++ userDataDir, noFirstRun, noDefaultBrowserCheck] }

/-- Instance.Start: fails if already running; builds the launch command,
spawns it, and on success records the handle and sets the running flag; on
any failure the instance is unchanged. -/
def Instance.Start (env : Env) (ci : Instance) : InstStep :=
  if ci.isRunning then
    { inst := ci, err := some (.alreadyRunning ci.config.name), effs := [] }
  else
    match buildChromeCommand env ci.config.userDataDir with
    | .error e => { inst := ci, err := some e, effs := [] }
    | .ok c =>
      match env.spawn c with
      | none =>
        { inst := ci, err := some (.launchFailed ci.config.name ci.config.userDataDir),
          effs := [.spawnProc c] }
      | some pid =>
        { inst := { ci with cmd := some { process := some pid, processState := none },
                            isRunning := true },
          err := none, effs := [.spawnProc c] }

/-- The no-handle stop path of Instance.Stop: discovery plus kill by user
data directory, wrapping the two failure shapes of chromeStop. -/
def stopByDirPath (env : Env) (ci : Instance) : InstStep :=
  let r := chromeStop env ci.config.userDataDir
  match r.err with
  | some _ =>
    { inst := ci, err := some (.stopByDirFailed ci.config.name ci.config.userDataDir),
      effs := r.effs }
  | none =>
    if r.stopped then
      { inst := { ci with isRunning := false }, err := none, effs := r.effs }
    else
      { inst := ci, err := some (.stopByDirNotFound ci.config.name ci.config.userDataDir),
        effs := r.effs }

/-- Instance.Stop: fails if not running; with an owned handle sends SIGTERM
first, and on signal failure falls back to chromeStop, erring when that
fallback errs or finds nothing; without a handle goes straight to
chromeStop.  On every success the running flag is cleared (the handle is
kept for Wait); on every failure the instance is unchanged. -/
def Instance.Stop (env : Env) (ci : Instance) : InstStep :=
  if !ci.isRunning then
    { inst := ci, err := some (.notRunning ci.config.name), effs := [] }
  else
    match ci.cmd with
    | some c =>
      match c.process with
      | some pid =>
        if env.signalOk pid then
          { inst := { ci with isRunning := false }, err := none, effs := [.signal pid] }
        else
          let r := chromeStop env ci.config.userDataDir
          match r.err with
          | some _ =>
            { inst := ci, err := some (.signalFallbackFailed ci.config.name),
              effs := .signal pid :: r.effs }
          | none =>
            if r.stopped then
              { inst := { ci with isRunning := false }, err := none,
                effs := .signal pid :: r.effs }
            else
              { inst := ci, err := some (.signalFallbackNotFound ci.config.name),
                effs := .signal pid :: r.effs }
      | none => stopByDirPath env ci
    | none => stopByDirPath env ci

/-- Instance.IsRunning: if a held handle has a ProcessState that reports
the process as exited, self-heals the flag to false and drops the handle;
answers the flag.  No fresh OS scan is made. -/
def Instance.IsRunning (ci : Instance) : Instance × Bool :=
  match ci.cmd with
  | some c =>
    match c.processState with
    | some true => ({ ci with isRunning := false, cmd := none }, false)
    | _ => (ci, ci.isRunning)
  | none => (ci, ci.isRunning)

/-- Instance.Wait: with no held handle immediately clears the flag and the
handle and returns nil; with a handle waits on it, then clears both and
returns the wait outcome. -/
def Instance.Wait (env : Env) (ci : Instance) : InstStep :=
  match ci.cmd with
  | none =>
    { inst := { ci with isRunning := false, cmd := none }, err := none, effs := [] }
  | some c =>
    { inst := { ci with isRunning := false, cmd := none }, err := env.waitResult c,
      effs := [.waitProc] }

/-- A concrete linux environment used by the closed witness and
counterexample statements: filepath.Abs is the identity, discovery finds
nothing, kills succeed, signals succeed, spawning yields pid 1, and writes
succeed. -/
def envBase : Env where
  goos := .linux
  abs := fun s => some s
  runFind := fun _ => .error (.exit 1 "")
  kill := fun _ => .ok
  signalOk := fun _ => true
  spawn := fun _ => some 1
  waitResult := fun _ => none
  localAppData := ""
  homeDir := some "/home/u"
  writeOk := true

/-- C10: Wait on an instance holding no owned process handle returns nil
immediately, unconditionally sets the running flag to false and clears the
handle, and performs no OS calls; in particular an externally discovered
instance whose flag is true is reported as stopped without any OS
interaction. -/
theorem wait_no_handle_clears_state (env : Env) (ci : Instance) (h : ci.cmd = none) :
    Instance.Wait env ci =
      { inst := { ci with isRunning := false, cmd := none }, err := none, effs := [] } := by
  unfold Instance.Wait
  rw [h]

/-- Witness for C10 at a concrete externally observed running instance. -/
theorem wait_no_handle_clears_state_witness :
    Instance.Wait envBase { config := defaultChromeConfig, cmd := none, isRunning := true } =
      { inst := { config := defaultChromeConfig, cmd := none, isRunning := false },
        err := none, effs := [] } :=
  wait_no_handle_clears_state envBase
    { config := defaultChromeConfig, cmd := none, isRunning := true } rfl

/-- C6: Stop on an instance whose running flag is false fails with the
not-running error and performs no OS calls: the effect trace is empty, so
no signal, no discovery and no kill happens. -/
theorem stop_not_running_no_os_calls (env : Env) (ci : Instance) (h : ci.isRunning = false) :
    Instance.Stop env ci =
      { inst := ci, err := some (.notRunning ci.config.name), effs := [] } := by
  unfold Instance.Stop
  rw [h]
  simp

/-- Witness for C6 at a concrete stopped instance. -/
theorem stop_not_running_no_os_calls_witness :
    Instance.Stop envBase { config := defaultChromeConfig, cmd := none, isRunning := false } =
      { inst := { config := defaultChromeConfig, cmd := none, isRunning := false },
        err := some (.notRunning DefaultChromeConfigName), effs := [] } :=
  stop_not_running_no_os_calls envBase
    { config := defaultChromeConfig, cmd := none, isRunning := false } rfl

/-- C4: whenever Start returns an error (already running, launch command
construction failure, or spawn failure) the instance is returned unchanged,
so neither the running flag nor the handle is modified; in particular after
a spawn failure on a stopped instance the flag is still false. -/
theorem start_error_leaves_state_unchanged (env : Env) (ci : Instance)
    (h : (Instance.Start env ci).err.isSome = true) :
    (Instance.Start env ci).inst = ci ∧
    (ci.isRunning = false → (Instance.Start env ci).inst.isRunning = false) := by
  have hinst : (Instance.Start env ci).inst = ci := by
    unfold Instance.Start at h ⊢
    by_cases hr : ci.isRunning
    · simp [hr]
    · simp only [hr, Bool.false_eq_true, if_false] at h ⊢
      cases hb : buildChromeCommand env ci.config.userDataDir with
      | error e => simp [hb]
      | ok c =>
        cases hs : env.spawn c with
        | none => simp [hb, hs]
        | some pid => rw [hb] at h; simp [hs] at h
  exact ⟨hinst, fun hf => by rw [hinst]; exact hf⟩

/-- Witness for C4: a spawn failure on a stopped instance leaves it
stopped and unchanged. -/
theorem start_error_leaves_state_unchanged_witness :
    (Instance.Start { envBase with spawn := fun _ => none }
        { config := defaultChromeConfig, cmd := none, isRunning := false }).err.isSome = true ∧
    (Instance.Start { envBase with spawn := fun _ => none }
        { config := defaultChromeConfig, cmd := none, isRunning := false }).inst =
      { config := defaultChromeConfig, cmd := none, isRunning := false } :=
  ⟨by decide,
   (start_error_leaves_state_unchanged { envBase with spawn := fun _ => none }
     { config := defaultChromeConfig, cmd := none, isRunning := false } (by decide)).1⟩

/-- C5: Start on a stopped instance (when the launch command builds and the
spawn succeeds) records the handle, sets the running flag, and an
immediately following IsRunning answers true; Start on an instance whose
flag is already true fails with the already-running error and changes
nothing.  Each operation is one atomic transition, modelling the
check-and-set under the instance lock. -/
theorem start_stopped_then_isRunning (env : Env) (ci : Instance)
    (hstop : ci.isRunning = false)
    (c : LaunchCmd) (hb : buildChromeCommand env ci.config.userDataDir = .ok c)
    (pid : Nat) (hs : env.spawn c = some pid) :
    Instance.Start env ci =
      { inst := { ci with cmd := some { process := some pid, processState := none },
                          isRunning := true },
        err := none, effs := [.spawnProc c] } ∧
    ((Instance.Start env ci).inst.IsRunning).2 = true ∧
    (∀ cj : Instance, cj.isRunning = true →
      Instance.Start env cj =
        { inst := cj, err := some (.alreadyRunning cj.config.name), effs := [] }) := by
  have h1 : Instance.Start env ci =
      { inst := { ci with cmd := some { process := some pid, processState := none },
                          isRunning := true },
        err := none, effs := [.spawnProc c] } := by
    unfold Instance.Start
    simp [hstop, hb, hs]
  refine ⟨h1, ?_, ?_⟩
  · rw [h1]
    rfl
  · intro cj hj
    unfold Instance.Start
    simp [hj]

/-- Witness for C5 at a concrete stopped default instance and a concrete
running instance. -/
theorem start_stopped_then_isRunning_witness :
    Instance.Start envBase { config := defaultChromeConfig, cmd := none, isRunning := false } =
      { inst := { config := defaultChromeConfig,
                  cmd := some { process := some 1, processState := none }, isRunning := true },
        err := none,
        effs := [.spawnProc { path := "google-chrome",
                              args := [noFirstRun, noDefaultBrowserCheck] }] } ∧
    Instance.Start envBase { config := defaultChromeConfig, cmd := none, isRunning := true } =
      { inst := { config := defaultChromeConfig, cmd := none, isRunning := true },
        err := some (.alreadyRunning DefaultChromeConfigName), effs := [] } := by
  have h := start_stopped_then_isRunning envBase
    { config := defaultChromeConfig, cmd := none, isRunning := false } rfl
    { path := "google-chrome", args := [noFirstRun, noDefaultBrowserCheck] } (by decide) 1 rfl
  exact ⟨h.1, h.2.2 { config := defaultChromeConfig, cmd := none, isRunning := true } rfl⟩

/-- C1 (amended): a running instance without an owned handle is stopped
via the discovery-plus-kill fallback only (the effect trace is exactly the
chromeStop trace, with no signal); when that discovery finds no process
(chromeStop reports not stopped with no error), Stop returns the
could-not-find error and leaves the instance, including its running flag,
unchanged. -/
theorem stop_no_handle_uses_discovery (env : Env) (ci : Instance)
    (hrun : ci.isRunning = true) (hcmd : ci.cmd = none) :
    (Instance.Stop env ci).effs = (chromeStop env ci.config.userDataDir).effs ∧
    ((chromeStop env ci.config.userDataDir).stopped = false →
     (chromeStop env ci.config.userDataDir).err = none →
     Instance.Stop env ci =
       { inst := ci,
         err := some (.stopByDirNotFound ci.config.name ci.config.userDataDir),
         effs := (chromeStop env ci.config.userDataDir).effs }) := by
  obtain ⟨cfg, cmdOpt, run⟩ := ci
  simp only at hrun hcmd
  subst hrun
  subst hcmd
  unfold Instance.Stop stopByDirPath
  cases hc : chromeStop env cfg.userDataDir with
  | mk st er ef =>
    cases er with
    | some e => exact ⟨rfl, fun _ h2 => by cases h2⟩
    | none =>
      cases st with
      | true => exact ⟨rfl, fun h1 => by cases h1⟩
      | false => exact ⟨rfl, fun _ _ => rfl⟩

/-- Witness for the amended C1 at a concrete externally observed default
instance whose stop-time discovery finds nothing. -/
theorem stop_no_handle_uses_discovery_witness :
    Instance.Stop envBase { config := defaultChromeConfig, cmd := none, isRunning := true } =
      { inst := { config := defaultChromeConfig, cmd := none, isRunning := true },
        err := some (.stopByDirNotFound DefaultChromeConfigName ""),
        effs := [.query .defaultPids] } := by
  have h := stop_no_handle_uses_discovery envBase
    { config := defaultChromeConfig, cmd := none, isRunning := true } rfl rfl
  exact (h.2 (by decide) (by decide)).trans (by decide)

/-- Environment for the C1 counterexample: construction-time discovery of
the default instance reports a pid, while every other discovery command
exits with code 1 and empty output (pgrep for no match). -/
def envC1 : Env :=
  { envBase with
    runFind := fun q => if q = .defaultPresence then .ok "123" else .error (.exit 1 "") }

/-- C1 counterexample: the default instance is constructed as running with
no owned handle (externally observed); Stop then uses discovery, which
finds no process, and Stop DOES return an error, contradicting the claim
that it must not error in this situation. -/
theorem stop_default_discovery_nothing_errs_cex :
    (NewInstance envC1 defaultChromeConfig).isRunning = true ∧
    (NewInstance envC1 defaultChromeConfig).cmd = none ∧
    Instance.Stop envC1 (NewInstance envC1 defaultChromeConfig) =
      { inst := NewInstance envC1 defaultChromeConfig,
        err := some (.stopByDirNotFound DefaultChromeConfigName ""),
        effs := [.query .defaultPids] } := by decide

/-- filepath.IsAbs for unix paths: the path begins with a slash. -/
def unixIsAbs (s : String) : Bool :=
  match s.data with
  | c :: _ => c = '/'
  | [] => false

/-- C2 counterexample: on linux, Start for a profile whose stored
directory is relative passes the isolation-directory flag with that
relative path unchanged (no absolute-path normalization), and the launch
succeeds, contradicting the claim that the flag always carries an absolute
path for non-default profiles. -/
theorem start_linux_relative_dir_cex :
    buildChromeCommand envBase "mydir" =
      .ok { path := "google-chrome",
            args := [userDataDirFlag ++ "mydir", noFirstRun, noDefaultBrowserCheck] } ∧
    unixIsAbs "mydir" = false ∧
    (Instance.Start envBase
      { config := { name := "p", userDataDir := "mydir", isDefault := false },
        cmd := none, isRunning := false }).err = none := by decide

/-- C2 (amended): the launch command omits the isolation-directory flag
for the default profile on every platform and always appends the first-run
and default-browser suppression flags last; for a non-default profile the
flag carries the filepath.Abs result on darwin only, the stored path with
forward slashes turned to backslashes (not made absolute) on windows, and
the stored path unchanged on linux and other platforms. -/
theorem buildChromeCommand_args (env : Env) (dir : String) :
    (dir = "" →
      ∃ p, buildChromeCommand env dir =
        .ok { path := p, args := [noFirstRun, noDefaultBrowserCheck] }) ∧
    (∀ c, buildChromeCommand env dir = .ok c →
      [noFirstRun, noDefaultBrowserCheck] <:+ c.args) ∧
    (env.goos = .darwin → dir ≠ "" → ∀ a, env.abs dir = some a →
      buildChromeCommand env dir =
        .ok { path := "/Applications/Google Chrome.app/Contents/MacOS/Google Chrome",
              args := [userDataDirFlag ++ a, noFirstRun, noDefaultBrowserCheck] }) ∧
    (env.goos = .windows → dir ≠ "" →
      buildChromeCommand env dir =
        .ok { path := "C:\\Program Files\\Google\\Chrome\\Application\\chrome.exe",
              args := [userDataDirFlag ++ goReplace dir '/' "\\",
                       noFirstRun, noDefaultBrowserCheck] }) ∧
    (env.goos = .linux → dir ≠ "" →
      buildChromeCommand env dir =
        .ok { path := "google-chrome",
              args := [userDataDirFlag ++ dir, noFirstRun, noDefaultBrowserCheck] }) ∧
    (env.goos = .other → dir ≠ "" →
      buildChromeCommand env dir =
        .ok { path := "chrome",
              args := [userDataDirFlag ++ dir, noFirstRun, noDefaultBrowserCheck] }) := by
  refine ⟨?_, ?_, ?_, ?_, ?_, ?_⟩
  · intro h
    subst h
    unfold buildChromeCommand
    cases hg : env.goos <;> exact ⟨_, rfl⟩
  · intro c hc
    unfold buildChromeCommand at hc
    cases hg : env.goos <;> rw [hg] at hc <;> dsimp only at hc
    case darwin =>
      by_cases hd : dir = ""
      · rw [if_pos hd] at hc
        injection hc with h
        subst h
        exact ⟨[], rfl⟩
      · rw [if_neg hd] at hc
        cases habs : env.abs dir with
        | none => rw [habs] at hc; cases hc
        | some a =>
          rw [habs] at hc
          injection hc with h
          subst h
          exact ⟨[userDataDirFlag ++ a], rfl⟩
    case windows =>
      by_cases hd : dir = ""
      · rw [if_pos hd] at hc
        injection hc with h
        subst h
        exact ⟨[], rfl⟩
      · rw [if_neg hd] at hc
        injection hc with h
        subst h
        exact ⟨[userDataDirFlag ++ goReplace dir '/' "\\"], rfl⟩
    case linux =>
      by_cases hd : dir = ""
      · rw [if_pos hd] at hc
        injection hc with h
        subst h
        exact ⟨[], rfl⟩
      · rw [if_neg hd] at hc
        injection hc with h
        subst h
        exact ⟨[userDataDirFlag ++ dir], rfl⟩
    case other =>
      by_cases hd : dir = ""
      · rw [if_pos hd] at hc
        injection hc with h
        subst h
        exact ⟨[], rfl⟩
      · rw [if_neg hd] at hc
        injection hc with h
        subst h
        exact ⟨[userDataDirFlag ++ dir], rfl⟩
  · intro hg hd a habs
    unfold buildChromeCommand
    rw [hg]
    dsimp only
    rw [if_neg hd, habs]
  · intro hg hd
    unfold buildChromeCommand
    rw [hg]
    dsimp only
    rw [if_neg hd]
  · intro hg hd
    unfold buildChromeCommand
    rw [hg]
    dsimp only
    rw [if_neg hd]
  · intro hg hd
    unfold buildChromeCommand
    rw [hg]
    dsimp only
    rw [if_neg hd]

/-- Witness for the amended C2: concrete launch commands on linux with a
named profile and on darwin with the default profile. -/
theorem buildChromeCommand_args_witness :
    buildChromeCommand envBase "/tmp/w" =
      .ok { path := "google-chrome",
            args := [userDataDirFlag ++ "/tmp/w", noFirstRun, noDefaultBrowserCheck] } ∧
    ∃ p, buildChromeCommand { envBase with goos := .darwin } "" =
      .ok { path := p, args := [noFirstRun, noDefaultBrowserCheck] } :=
  ⟨(buildChromeCommand_args envBase "/tmp/w").2.2.2.2.1 rfl (by decide),
   (buildChromeCommand_args { envBase with goos := .darwin } "").1 rfl⟩

/-- C3 (amended): Stop on a running instance with an owned handle first
sends the graceful termination signal (it is the first OS call in the
trace); if the signal succeeds Stop returns nil having only signalled; if
signal delivery fails it falls back to discovery-plus-kill for the profile
directory and returns an error whenever that fallback does not stop
anything (it found nothing, or it itself failed); and whenever Stop returns
an error the instance is unchanged, so its running flag remains true. -/
theorem stop_owned_handle_behaviour (env : Env) (ci : Instance) (c : GoCmd) (pid : Nat)
    (hrun : ci.isRunning = true) (hcmd : ci.cmd = some c) (hp : c.process = some pid) :
    ((Instance.Stop env ci).effs.head? = some (.signal pid)) ∧
    (env.signalOk pid = true →
      Instance.Stop env ci =
        { inst := { ci with isRunning := false }, err := none, effs := [.signal pid] }) ∧
    (env.signalOk pid = false →
      (Instance.Stop env ci).effs =
        .signal pid :: (chromeStop env ci.config.userDataDir).effs ∧
      ((chromeStop env ci.config.userDataDir).stopped = false →
        (Instance.Stop env ci).err.isSome = true)) ∧
    ((Instance.Stop env ci).err.isSome = true →
      (Instance.Stop env ci).inst = ci ∧ (Instance.Stop env ci).inst.isRunning = true) := by
  obtain ⟨cfg, cmdOpt, run⟩ := ci
  obtain ⟨proc, ps⟩ := c
  simp only at hrun hcmd hp
  subst hrun
  subst hcmd
  subst hp
  unfold Instance.Stop
  dsimp only
  simp only [Bool.not_true, Bool.false_eq_true, if_false]
  by_cases hsig : env.signalOk pid = true
  · rw [hsig]
    exact ⟨rfl, fun _ => rfl, fun hf => Bool.noConfusion hf,
           fun habs => Bool.noConfusion habs⟩
  · rw [Bool.not_eq_true] at hsig
    rw [hsig]
    cases hc : chromeStop env cfg.userDataDir with
    | mk st er ef =>
      cases er with
      | some e =>
        exact ⟨rfl, fun h => Bool.noConfusion h, fun _ => ⟨rfl, fun _ => rfl⟩,
               fun _ => ⟨rfl, rfl⟩⟩
      | none =>
        cases st with
        | true =>
          exact ⟨rfl, fun h => Bool.noConfusion h,
                 fun _ => ⟨rfl, fun h1 => Bool.noConfusion h1⟩,
                 fun habs => Bool.noConfusion habs⟩
        | false =>
          exact ⟨rfl, fun h => Bool.noConfusion h, fun _ => ⟨rfl, fun _ => rfl⟩,
                 fun _ => ⟨rfl, rfl⟩⟩

/-- Witness for the amended C3 at a concrete running instance whose signal
succeeds. -/
theorem stop_owned_handle_behaviour_witness :
    Instance.Stop envBase
      { config := defaultChromeConfig,
        cmd := some { process := some 7, processState := none }, isRunning := true } =
      { inst := { config := defaultChromeConfig,
                  cmd := some { process := some 7, processState := none },
                  isRunning := false },
        err := none, effs := [.signal 7] } :=
  (stop_owned_handle_behaviour envBase
    { config := defaultChromeConfig,
      cmd := some { process := some 7, processState := none }, isRunning := true }
    { process := some 7, processState := none } 7 rfl rfl rfl).2.1 rfl

/-- Environment for the C3 counterexample: signal delivery fails, the
fallback discovery for directory /p finds pid 123, and the termination
request for it fails. -/
def envC3 : Env :=
  { envBase with
    signalOk := fun _ => false,
    runFind := fun q => if q = .byDir "/p" then .ok "123" else .error .failed,
    kill := fun _ => .failed }

/-- C3 counterexample: with a failed signal, the fallback discovery FINDS
a process (pid 123, a kill is attempted on it) and yet Stop returns an
error because the kill fails, contradicting the claim that a StopError is
returned only if the fallback finds nothing.  The instance stays running. -/
theorem stop_error_despite_fallback_found_cex :
    (Instance.Stop envC3
      { config := { name := "work", userDataDir := "/p", isDefault := false },
        cmd := some { process := some 7, processState := none }, isRunning := true }).err =
      some (.signalFallbackFailed "work") ∧
    Effect.killPid 123 ∈ (Instance.Stop envC3
      { config := { name := "work", userDataDir := "/p", isDefault := false },
        cmd := some { process := some 7, processState := none }, isRunning := true }).effs ∧
    (Instance.Stop envC3
      { config := { name := "work", userDataDir := "/p", isDefault := false },
        cmd := some { process := some 7, processState := none }, isRunning := true }).inst.isRunning
      = true := by decide

/-- Round-trip core: the records the save loop accepts pass the load
validation unchanged, and none of them carries the reserved default name. -/
theorem saveUserRecords_roundtrip (env : Env) :
    ∀ (cfgs : List ChromeConfig) (rs : List PersistedRecord),
      saveUserRecords env cfgs = .ok rs →
      loadValidUserConfigs env rs = cfgs.filter (fun c => !c.isDefault) ∧
      ∀ r ∈ rs, r.name ≠ DefaultChromeConfigName := by
  intro cfgs
  induction cfgs with
  | nil =>
    intro rs h
    unfold saveUserRecords at h
    injection h with h
    subst h
    exact ⟨rfl, by intro r hr; cases hr⟩
  | cons cfg rest ih =>
    intro rs h
    obtain ⟨nm, ud, df⟩ := cfg
    unfold saveUserRecords at h
    dsimp only at h
    cases df with
    | true =>
      rw [if_pos rfl] at h
      obtain ⟨h1, h2⟩ := ih rs h
      refine ⟨?_, h2⟩
      rw [h1, List.filter_cons]
      simp
    | false =>
      rw [if_neg (by simp)] at h
      by_cases hname : nm = DefaultChromeConfigName
      · rw [if_pos hname] at h; cases h
      · rw [if_neg hname] at h
        by_cases hempty : ud = ""
        · rw [if_pos hempty] at h; cases h
        · rw [if_neg hempty] at h
          by_cases hclash : defaultDirClash env ud = true
          · rw [if_pos hclash] at h; cases h
          · rw [if_neg hclash] at h
            cases hrec : saveUserRecords env rest with
            | error e => rw [hrec] at h; cases h
            | ok rs2 =>
              rw [hrec] at h
              dsimp only at h
              injection h with h
              subst h
              obtain ⟨h1, h2⟩ := ih rs2 hrec
              constructor
              · rw [loadValidUserConfigs]
                dsimp only
                rw [if_neg hname, if_neg hclash, if_neg hempty, h1, List.filter_cons]
                simp
              · intro r hr
                rcases List.mem_cons.mp hr with rfl | hr2
                · exact hname
                · exact h2 r hr2

/-- C7: for every list of profiles accepted by SaveConfigs, loading the
persisted records reconstructs exactly the non-default entries, in order,
behind the default sentinel placed first; and no persisted record carries
the reserved sentinel name, so the sentinel never reaches the on-disk
bytes. -/
theorem save_then_load_round_trip (env : Env) (cfgs : List ChromeConfig)
    (rs : List PersistedRecord) (h : SaveConfigs env cfgs = .ok rs) :
    LoadConfigs env (.ok rs) =
      defaultChromeConfig :: cfgs.filter (fun c => !c.isDefault) ∧
    ∀ r ∈ rs, r.name ≠ DefaultChromeConfigName := by
  unfold SaveConfigs at h
  cases hrec : saveUserRecords env cfgs with
  | error e => rw [hrec] at h; cases h
  | ok rs2 =>
    rw [hrec] at h
    dsimp only at h
    by_cases hw : env.writeOk = true
    · rw [if_pos hw] at h
      injection h with h
      subst h
      obtain ⟨h1, h2⟩ := saveUserRecords_roundtrip env cfgs rs2 hrec
      refine ⟨?_, h2⟩
      rw [LoadConfigs, h1]
    · rw [if_neg hw] at h; cases h

/-- Witness for C7 at a concrete two-entry list. -/
theorem save_then_load_round_trip_witness :
    SaveConfigs envBase
        [defaultChromeConfig, { name := "work", userDataDir := "/tmp/w", isDefault := false }]
      = .ok [{ name := "work", userDataDir := "/tmp/w" }] ∧
    LoadConfigs envBase (.ok [{ name := "work", userDataDir := "/tmp/w" }]) =
      defaultChromeConfig ::
        ([defaultChromeConfig,
          { name := "work", userDataDir := "/tmp/w", isDefault := false }].filter
            (fun c => !c.isDefault)) := by
  have hs : SaveConfigs envBase
      [defaultChromeConfig, { name := "work", userDataDir := "/tmp/w", isDefault := false }]
      = .ok [{ name := "work", userDataDir := "/tmp/w" }] := by decide
  exact ⟨hs, (save_then_load_round_trip envBase _ _ hs).1⟩

/-- C8: for every name, AddConfig with a directory that clashes (after
absolute-path normalization and case folding) with the actual OS default
profile directory fails with a validation error and returns the current
list unchanged. -/
theorem addConfig_default_dir_rejected (env : Env) (nm dir : String)
    (current : List ChromeConfig) (h : defaultDirClash env dir = true) :
    (AddConfig env nm dir current).1 = current ∧
    ∃ e, (AddConfig env nm dir current).2 = some e ∧ isValidationError e = true := by
  unfold AddConfig
  by_cases h1 : nm = DefaultChromeConfigName
  · rw [if_pos h1]
    exact ⟨rfl, ⟨.reservedName, rfl, rfl⟩⟩
  · rw [if_neg h1]
    by_cases h2 : goTrim dir = ""
    · rw [if_pos h2]
      exact ⟨rfl, ⟨.emptyUserDataDir, rfl, rfl⟩⟩
    · rw [if_neg h2, if_pos h]
      exact ⟨rfl, ⟨.defaultDirReserved dir, rfl, rfl⟩⟩

/-- Witness for C8 at the concrete linux default directory. -/
theorem addConfig_default_dir_rejected_witness :
    defaultDirClash envBase "/home/u/.config/google-chrome" = true ∧
    (AddConfig envBase "p" "/home/u/.config/google-chrome" []).1 = [] ∧
    ∃ e, (AddConfig envBase "p" "/home/u/.config/google-chrome" []).2 = some e ∧
      isValidationError e = true := by
  have h : defaultDirClash envBase "/home/u/.config/google-chrome" = true := by decide
  have h2 := addConfig_default_dir_rejected envBase "p" "/home/u/.config/google-chrome" [] h
  exact ⟨h, h2.1, h2.2⟩

/-- C9: RemoveConfig with the reserved default name always fails with the
protected-entity error, before any existence check; removing an absent
name fails with not-found; both failures return the current list
unchanged (as does any error), and otherwise the entry is removed and the
filtered list is persisted and returned. -/
theorem removeConfig_behaviour (env : Env) (nm : String) (current : List ChromeConfig) :
    (RemoveConfig env DefaultChromeConfigName current =
      (current, some .cannotRemoveDefault)) ∧
    (nm ≠ DefaultChromeConfigName →
      current.any (fun c => c.name == nm) = false →
      RemoveConfig env nm current = (current, some (.notFound nm))) ∧
    (nm ≠ DefaultChromeConfigName →
      current.any (fun c => c.name == nm) = true →
      ∀ rs, SaveConfigs env (current.filter (fun c => c.name != nm)) = .ok rs →
        RemoveConfig env nm current =
          (current.filter (fun c => c.name != nm), none)) ∧
    ((RemoveConfig env nm current).2.isSome = true →
      (RemoveConfig env nm current).1 = current) := by
  refine ⟨?_, ?_, ?_, ?_⟩
  · unfold RemoveConfig
    rw [if_pos rfl]
  · intro hn hf
    unfold RemoveConfig
    rw [if_neg hn]
    dsimp only
    rw [hf]
    rfl
  · intro hn hf rs hsave
    unfold RemoveConfig
    rw [if_neg hn]
    dsimp only
    rw [hf, hsave]
    rfl
  · unfold RemoveConfig
    by_cases hn : nm = DefaultChromeConfigName
    · rw [if_pos hn]
      intro _
      rfl
    · rw [if_neg hn]
      dsimp only
      by_cases hf : current.any (fun c => c.name == nm) = true
      · rw [hf]
        cases hsv : SaveConfigs env (current.filter (fun c => c.name != nm)) with
        | error e =>
          intro _
          rfl
        | ok rs =>
          intro habs
          exact Bool.noConfusion habs
      · rw [Bool.not_eq_true] at hf
        rw [hf]
        intro _
        rfl

/-- Witness for C9 at concrete lists: a successful removal and a rejected
removal of the reserved name. -/
theorem removeConfig_behaviour_witness :
    RemoveConfig envBase "work"
        [defaultChromeConfig, { name := "work", userDataDir := "/tmp/w", isDefault := false }] =
      ([defaultChromeConfig], none) ∧
    RemoveConfig envBase DefaultChromeConfigName [defaultChromeConfig] =
      ([defaultChromeConfig], some .cannotRemoveDefault) := by
  have h := removeConfig_behaviour envBase "work"
    [defaultChromeConfig, { name := "work", userDataDir := "/tmp/w", isDefault := false }]
  refine ⟨?_, (removeConfig_behaviour envBase "x" [defaultChromeConfig]).1⟩
  have h3 := h.2.2.1 (by decide) (by decide) [] (by decide)
  exact h3.trans (by decide)
